import Mathlib

/-!
Verification development for a LINE translation-bot webhook handler
(`lambda_function.py`).  Message text is modelled as `List Char`; the
Python string primitives used by the source (`str.lower`, `str.strip`,
`str.replace`, substring membership via `in`) are embedded as executable
functions on `List Char`.  External collaborators (signature verifier,
webhook body parser, profile lookup, Bedrock model endpoint, reply send)
are parameters of the handler; calls to them are recorded in traces so
that claims about "no collaborator calls" are statable.
-/

namespace TranslatorBot

/-- Convert a string literal to the `List Char` representation used
throughout the development. -/
def chars (s : String) : List Char := s.data

/-- ASCII whitespace as recognised by Python `str.strip` (default
argument): space, tab, newline, carriage return, vertical tab, form
feed.  (Unicode whitespace is not needed by any claim.) -/
def pyIsSpace (c : Char) : Bool :=
  c = ' ' || c = '\t' || c = '\n' || c = '\r' || c = '\x0b' || c = '\x0c'

/-- Model of Python `str.lower` (ASCII letters; no message marker
involves non-ASCII case mapping). -/
def pyLower (l : List Char) : List Char := l.map Char.toLower

/-- Model of Python `str.strip`: drop leading and trailing whitespace. -/
def pyStrip (l : List Char) : List Char :=
  ((l.dropWhile pyIsSpace).reverse.dropWhile pyIsSpace).reverse

/-- `startsWith l p` holds when `p` is an initial segment of `l`. -/
def startsWith : List Char → List Char → Bool
  | _, [] => true
  | [], _ :: _ => false
  | c :: cs, p :: ps => c = p && startsWith cs ps

/-- Model of Python substring membership `pat in hay`. -/
def containsSub : List Char → List Char → Bool
  | hay, pat =>
    if startsWith hay pat then true
    else
      match hay with
      | [] => false
      | _ :: t => containsSub t pat

/-- Worker for `pyReplace`, structurally recursive on a fuel argument
so that it reduces definitionally.  Each step consumes at least one
character of the haystack, so fuel equal to the haystack length
suffices. -/
def pyReplaceFuel (old new : List Char) : Nat → List Char → List Char
  | _, [] => []
  | 0, l => l
  | fuel + 1, c :: rest =>
    if old ≠ [] && startsWith (c :: rest) old then
      new ++ pyReplaceFuel old new fuel (rest.drop (old.length - 1))
    else
      c :: pyReplaceFuel old new fuel rest

/-- Model of Python `hay.replace(old, new)` for a non-empty `old`:
replace every occurrence, scanning left to right without rescanning the
replacement text. -/
def pyReplace (old new hay : List Char) : List Char :=
  pyReplaceFuel old new hay.length hay

-- Basic characterisations --------------------------------------------------

theorem startsWith_iff (l p : List Char) :
    startsWith l p = true ↔ ∃ t, l = p ++ t := by
  induction p generalizing l with
  | nil => simp [startsWith]
  | cons q qs ih =>
    cases l with
    | nil =>
      simp [startsWith]
    | cons c cs =>
      simp only [startsWith, Bool.and_eq_true, decide_eq_true_eq, ih]
      constructor
      · rintro ⟨rfl, t, rfl⟩
        exact ⟨t, rfl⟩
      · rintro ⟨t, ht⟩
        injection ht with h1 h2
        exact ⟨h1, t, h2⟩

theorem containsSub_iff (hay pat : List Char) :
    containsSub hay pat = true ↔ ∃ a b, hay = a ++ pat ++ b := by
  induction hay with
  | nil =>
    rw [containsSub]
    constructor
    · intro h
      split at h
      · rename_i hs
        rcases (startsWith_iff [] pat).1 hs with ⟨t, ht⟩
        exact ⟨[], t, ht⟩
      · exact absurd h (by simp)
    · rintro ⟨a, b, hab⟩
      have ha : a = [] := by
        cases a <;> simp_all
      subst ha
      have hp : pat = [] := by
        cases pat <;> simp_all
      subst hp
      simp [startsWith]
  | cons c cs ih =>
    rw [containsSub]
    constructor
    · intro h
      split at h
      · rename_i hs
        rcases (startsWith_iff _ pat).1 hs with ⟨t, ht⟩
        exact ⟨[], t, by simpa using ht⟩
      · rcases ih.1 h with ⟨a, b, hab⟩
        exact ⟨c :: a, b, by simp [hab]⟩
    · rintro ⟨a, b, hab⟩
      by_cases hs : startsWith (c :: cs) pat = true
      · simp [hs]
      · simp only [hs, if_false]
        cases a with
        | nil =>
          exfalso
          exact hs ((startsWith_iff _ pat).2 ⟨b, by simpa using hab⟩)
        | cons a0 as =>
          injection hab with h1 h2
          exact ih.2 ⟨as, b, h2⟩

/-- Substring containment is monotone under embedding into a larger
list by appending on both sides. -/
theorem containsSub_of_append (x y hay pat : List Char)
    (h : containsSub hay pat = true) :
    containsSub (x ++ hay ++ y) pat = true := by
  rcases (containsSub_iff hay pat).1 h with ⟨a, b, rfl⟩
  exact (containsSub_iff _ pat).2 ⟨x ++ a, b ++ y, by simp⟩

/-- `pyStrip` only removes characters from the two ends. -/
theorem pyStrip_decomp (l : List Char) :
    ∃ x y, l = x ++ pyStrip l ++ y := by
  refine ⟨l.takeWhile pyIsSpace,
    ((l.dropWhile pyIsSpace).reverse.takeWhile pyIsSpace).reverse, ?_⟩
  conv_lhs => rw [← List.takeWhile_append_dropWhile (p := pyIsSpace) (l := l)]
  rw [List.append_assoc]
  congr 1
  have h := List.takeWhile_append_dropWhile (p := pyIsSpace)
    (l := (l.dropWhile pyIsSpace).reverse)
  have h2 := congrArg List.reverse h
  rw [List.reverse_append, List.reverse_reverse] at h2
  simp only [pyStrip]
  exact h2.symm

/-- Containment in the stripped text implies containment in the
original text. -/
theorem containsSub_pyStrip (l pat : List Char)
    (h : containsSub (pyStrip l) pat = true) :
    containsSub l pat = true := by
  rcases pyStrip_decomp l with ⟨x, y, hl⟩
  rw [hl]
  exact containsSub_of_append x y _ pat h

/-- Containment in the lowercased stripped text implies containment in
the lowercased original text. -/
theorem containsSub_pyLower_pyStrip (l pat : List Char)
    (h : containsSub (pyLower (pyStrip l)) pat = true) :
    containsSub (pyLower l) pat = true := by
  rcases pyStrip_decomp l with ⟨x, y, hl⟩
  rw [hl]
  unfold pyLower
  rw [List.map_append, List.map_append]
  exact containsSub_of_append _ _ _ pat h

/-- Mapping a function over both haystack and pattern preserves
containment. -/
theorem containsSub_map (f : Char → Char) (hay pat : List Char)
    (h : containsSub hay pat = true) :
    containsSub (hay.map f) (pat.map f) = true := by
  rcases (containsSub_iff hay pat).1 h with ⟨a, b, rfl⟩
  exact (containsSub_iff _ _).2 ⟨a.map f, b.map f, by simp⟩

-- Source model: trigger resolution and message processing -----------------

/-- Trigger resolution, from the branch at lines 87-102 of
`lambda_function.py`: scan the (already stripped) message text
case-insensitively for the markers; on a hit, remove every occurrence of
the all-lowercase and all-uppercase spelling of that marker and strip
whitespace.  Returns the text to translate with source and target
language codes, or `none` when no marker is present. -/
def resolveTrigger (message_text : List Char) :
    Option (List Char × List Char × List Char) :=
  if containsSub (pyLower message_text) (chars "#e2j") then
    some (pyStrip (pyReplace (chars "#E2J") [] (pyReplace (chars "#e2j") [] message_text)),
      chars "en", chars "ja")
  else if containsSub (pyLower message_text) (chars "#j2e") then
    some (pyStrip (pyReplace (chars "#J2E") [] (pyReplace (chars "#j2e") [] message_text)),
      chars "ja", chars "en")
  else none

/-- An inbound message event as decoded by the webhook SDK: message
kind flag (`isinstance(event.message, TextMessage)`), raw text, sender
identifier and the reply token. -/
structure LineEvent where
  messageIsText : Bool
  text : List Char
  userId : List Char
  replyToken : List Char

/-- Result of one `process_message_event` call, instrumented with the
collaborator calls the code made: profile lookups and translation
requests `(text, source_lang, target_lang)`. -/
structure ProcResult where
  reply : Option (List Char)
  profileCalls : List (List Char)
  translateCalls : List (List Char × List Char × List Char)
deriving DecidableEq

/-- Python interpolates `None` into an f-string as the text `None`;
a present string is interpolated as itself. -/
def pyInterpolateOpt : Option (List Char) → List Char
  | some s => s
  | none => chars "None"

/-- The reply composed at line 114 of `lambda_function.py`. -/
def composeReply (displayName sourceLang targetLang : List Char)
    (translated : Option (List Char)) : List Char :=
  chars "Message from @" ++ displayName ++ chars ": (" ++ sourceLang ++
    chars " -> " ++ targetLang ++ chars "):\n--------------------\n" ++
    pyInterpolateOpt translated

/-- `process_message_event` (lines 66-120): skip non-text messages,
report a configuration error when the messaging API client is missing,
otherwise look up the sender profile, resolve the trigger on the
stripped text, and if the remaining text is non-empty call the
translation client and compose the reply.  `translate` is the
translation collaborator (`none` is its failure indicator) and
`getProfile` the profile-lookup collaborator. -/
def process_message_event
    (translate : List Char → List Char → List Char → Option (List Char))
    (getProfile : List Char → List Char)
    (apiAvailable : Bool) (ev : LineEvent) : ProcResult :=
  if ev.messageIsText = false then
    ⟨none, [], []⟩
  else if apiAvailable = false then
    ⟨some (chars "Bot configuration error"), [], []⟩
  else
    let user_display_name := getProfile ev.userId
    let message_text := pyStrip ev.text
    match resolveTrigger message_text with
    | none => ⟨none, [ev.userId], []⟩
    | some (text_to_translate, source_lang, target_lang) =>
      if text_to_translate = [] then
        ⟨none, [ev.userId], []⟩
      else
        let translated_text := translate text_to_translate source_lang target_lang
        ⟨some (composeReply user_display_name source_lang target_lang translated_text),
          [ev.userId], [(text_to_translate, source_lang, target_lang)]⟩

-- Source model: TranslationService ------------------------------------------

/-- A parsed JSON value, as produced by `json.loads` on the model
response body. -/
inductive PyJson where
  | null
  | bool (b : Bool)
  | num (n : Int)
  | str (s : List Char)
  | arr (xs : List PyJson)
  | obj (fields : List (List Char × PyJson))

/-- Dictionary lookup `j[k]`; `none` models the `KeyError`/`TypeError`
raised when the key is missing or the value is not a dictionary. -/
def PyJson.getKey : PyJson → List Char → Option PyJson
  | .obj fields, k =>
    match fields.find? (fun f => f.1 = k) with
    | some f => some f.2
    | none => none
  | _, _ => none

/-- List indexing `j[i]`; `none` models the raised `IndexError`/`TypeError`. -/
def PyJson.getIndex : PyJson → Nat → Option PyJson
  | .arr xs, i => xs[i]?
  | _, _ => none

/-- Extract a string value; `none` models the `AttributeError` raised
by calling `.strip()` on a non-string. -/
def PyJson.getStr : PyJson → Option (List Char)
  | .str s => some s
  | _ => none

/-- The translation prompt built at lines 41-44: target-language name
chosen by `target_lang`, with the text appended after a blank line. -/
def mkPrompt (target_lang text : List Char) : List Char :=
  if target_lang = chars "en" then
    chars "Translate the following text to English. Only provide the translation, no explanations:\n\n" ++ text
  else
    chars "Translate the following text to Japanese. Only provide the translation, no explanations:\n\n" ++ text

/-- Extraction at line 55: `response_body["output"]["message"]["content"][0]["text"]`. -/
def extractTranslation (rb : PyJson) : Option (List Char) := do
  let o ← rb.getKey (chars "output")
  let m ← o.getKey (chars "message")
  let c ← m.getKey (chars "content")
  let f ← c.getIndex 0
  let t ← f.getKey (chars "text")
  t.getStr

/-- `TranslationService.translate_text` (lines 35-63).  `invoke`
abstracts the Bedrock endpoint: given the prompt it returns the parsed
response body, or `none` when the call raises or the body is not valid
JSON.  Every failure is caught and turned into the failure indicator
`none`; on success the extracted text is whitespace-stripped. -/
def translate_text (invoke : List Char → Option PyJson)
    (text : List Char) (_source_lang target_lang : List Char) :
    Option (List Char) :=
  let prompt := mkPrompt target_lang text
  match invoke prompt with
  | none => none
  | some response_body =>
    match extractTranslation response_body with
    | none => none
    | some translated_text => some (pyStrip translated_text)

-- Source model: lambda_handler ----------------------------------------------

/-- Environment configuration read at lines 16-19 of
`lambda_function.py` (`os.environ.get` yields `none` for an unset
variable). -/
structure Config where
  channelAccessToken : Option (List Char)
  channelSecret : Option (List Char)
  bedrockRegion : Option (List Char)
  bedrockModelId : Option (List Char)

/-- Python truthiness of an optional string: `None` and the empty
string are falsy.  Lines 22-23 build a client only for a truthy value. -/
def pyTruthyOpt : Option (List Char) → Bool
  | none => false
  | some s => !s.isEmpty

/-- The external collaborators of the handler: signature verification
and body parsing (both performed by `WebhookHandler.handle`), the
profile lookup, and the translation endpoint behaviour used by the
translation client. -/
structure World where
  verify : List Char → List Char → Bool
  parse : List Char → List LineEvent
  getProfile : List Char → List Char
  translate : List Char → List Char → List Char → Option (List Char)

/-- The inbound Lambda event: an optional headers dictionary and an
optional body; a missing dictionary or key raises `KeyError` at lines
133-134. -/
structure LambdaEvent where
  headers : Option (List (List Char × List Char))
  body : Option (List Char)

/-- The HTTP-style response dictionary. -/
structure Response where
  statusCode : Nat
  body : List Char
deriving DecidableEq

/-- Collaborator calls made during one handler invocation. -/
structure HandlerTrace where
  verifications : List (List Char × List Char)
  profileCalls : List (List Char)
  translateCalls : List (List Char × List Char × List Char)
  replies : List (List Char × List Char)
deriving DecidableEq

def HandlerTrace.empty : HandlerTrace := ⟨[], [], [], []⟩

/-- Minimal model of `json.dumps` on a string: quote it, escaping the
characters that occur in the fixed messages of the handler. -/
def jsonEscapeChar (c : Char) : List Char :=
  if c = '"' then ['\\', '"']
  else if c = '\\' then ['\\', '\\']
  else if c = '\n' then ['\\', 'n']
  else if c = '\t' then ['\\', 't']
  else if c = '\r' then ['\\', 'r']
  else [c]

def jsonDumps (s : List Char) : List Char :=
  '"' :: (s.map jsonEscapeChar).flatten ++ ['"']

/-- First-match lookup in the headers dictionary. -/
def headerLookup (hs : List (List Char × List Char)) (k : List Char) :
    Option (List Char) :=
  match hs.find? (fun p => p.1 = k) with
  | some p => some p.2
  | none => none

/-- Dispatch loop of `WebhookHandler.handle`: the callback registered
at lines 139-152 runs for each text-message event; it processes the
message and sends a reply only when a truthy (non-empty) reply text was
produced. -/
def dispatchEvents
    (translate : List Char → List Char → List Char → Option (List Char))
    (getProfile : List Char → List Char)
    (evs : List LineEvent) : HandlerTrace :=
  evs.foldl
    (fun acc ev =>
      if ev.messageIsText then
        let r := process_message_event translate getProfile true ev
        { acc with
          profileCalls := acc.profileCalls ++ r.profileCalls
          translateCalls := acc.translateCalls ++ r.translateCalls
          replies := acc.replies ++
            (match r.reply with
             | some txt => if txt.isEmpty then [] else [(ev.replyToken, txt)]
             | none => []) }
      else acc)
    HandlerTrace.empty

def configErrorMsg : List Char :=
  chars "LINE Bot not properly configured. Check environment variables."

def invalidSignatureMsg : List Char :=
  chars "Invalid signature. Please check your channel access token channel secret."

/-- `lambda_handler` (lines 123-167).  Returns `Except.error` when the
Python code would raise an uncaught exception (a `KeyError` from the
header or body lookups).  Otherwise returns the response dictionary
together with the trace of collaborator calls made. -/
def lambda_handler (w : World) (cfg : Config) (event : LambdaEvent) :
    Except (List Char) (Response × HandlerTrace) :=
  if !pyTruthyOpt cfg.channelAccessToken || !pyTruthyOpt cfg.channelSecret then
    Except.ok (⟨500, jsonDumps configErrorMsg⟩, HandlerTrace.empty)
  else
    match event.headers with
    | none => Except.error (chars "KeyError: headers")
    | some hs =>
      match headerLookup hs (chars "x-line-signature") with
      | none => Except.error (chars "KeyError: x-line-signature")
      | some signature =>
        match event.body with
        | none => Except.error (chars "KeyError: body")
        | some body =>
          if w.verify body signature then
            let tr := dispatchEvents w.translate w.getProfile (w.parse body)
            Except.ok (⟨200, jsonDumps (chars "OK")⟩,
              { tr with verifications := (body, signature) :: tr.verifications })
          else
            Except.ok (⟨502, jsonDumps invalidSignatureMsg⟩,
              { HandlerTrace.empty with verifications := [(body, signature)] })

-- Shared concrete data for witnesses and counterexamples --------------------

/-- A collaborator world in which every signature verifies, the body
parses to no events, every profile resolves to "Bob" and every
translation fails. -/
def sampleWorld : World :=
  ⟨fun _ _ => true, fun _ => [], fun _ => chars "Bob", fun _ _ _ => none⟩

/-- A fully populated configuration. -/
def fullConfig : Config :=
  ⟨some (chars "tok"), some (chars "sec"), some (chars "reg"), some (chars "model")⟩

/-- A well-formed inbound request carrying a signature header and a body. -/
def sampleEvent : LambdaEvent :=
  ⟨some [(chars "x-line-signature", chars "sig")], some (chars "payload")⟩

/-- A model response body holding a translation at the expected path. -/
def sampleResponse : PyJson :=
  .obj [(chars "output", .obj [(chars "message", .obj [(chars "content",
    .arr [.obj [(chars "text", .str (chars " Hello "))]])])])]

-- Claim C1 -------------------------------------------------------------------

/-- Refutation of claim C1 as stated: with the access token and signing
secret configured but the inference region and model identifier absent,
the handler does not short-circuit with 500 — it proceeds to signature
verification (a collaborator call) and returns 200. -/
theorem C1_counterexample :
    lambda_handler sampleWorld
      ⟨some (chars "tok"), some (chars "sec"), none, none⟩ sampleEvent =
      Except.ok (⟨200, jsonDumps (chars "OK")⟩,
        ⟨[(chars "payload", chars "sig")], [], [], []⟩) := by
  rfl

/-- Claim C1 (amended): for every invocation in which the access token
or the shared signing secret is absent (unset or empty), the handler
short-circuits and returns statusCode 500 with the configuration-error
body, making no collaborator calls; absence of the inference-region or
model identifier alone does not short-circuit. -/
theorem C1_config_short_circuit (w : World) (cfg : Config) (event : LambdaEvent)
    (h : pyTruthyOpt cfg.channelAccessToken = false ∨
         pyTruthyOpt cfg.channelSecret = false) :
    lambda_handler w cfg event =
      Except.ok (⟨500, jsonDumps configErrorMsg⟩, HandlerTrace.empty) := by
  unfold lambda_handler
  rcases h with h | h <;> simp [h]

/-- Witness for C1: a concrete invocation with the access token unset
returns the 500 configuration-error response with an empty call trace. -/
theorem C1_witness :
    lambda_handler sampleWorld
      ⟨none, some (chars "sec"), some (chars "reg"), some (chars "model")⟩
      sampleEvent =
      Except.ok (⟨500, jsonDumps configErrorMsg⟩, HandlerTrace.empty) :=
  C1_config_short_circuit _ _ _ (Or.inl rfl)

-- Claim C2 -------------------------------------------------------------------

/-- Refutation of claim C2 as stated: for the text "#E2j hello" the
trigger is detected case-insensitively, yet the mixed-case variant
"#E2j" of the marker is not stripped — the text to translate still
contains it, so not all case variants are removed. -/
theorem C2_counterexample :
    containsSub (pyLower (chars "#E2j hello")) (chars "#e2j") = true ∧
    resolveTrigger (chars "#E2j hello") =
      some (chars "#E2j hello", chars "en", chars "ja") ∧
    containsSub (chars "#E2j hello") (chars "#E2j") = true := by
  refine ⟨by decide, by decide, by decide⟩

/-- Claim C2 (amended): when a trigger marker is detected
case-insensitively, the resolver removes every occurrence of the
all-lowercase spelling and then every occurrence of the all-uppercase
spelling of that marker (left to right, without rescanning), trims
surrounding whitespace, and treats the remainder as the text to
translate; mixed-case spellings are not removed.  In particular
"#e2j#E2J only markers" leaves exactly "only markers". -/
theorem C2_strip_behaviour :
    (∀ t : List Char, containsSub (pyLower t) (chars "#e2j") = true →
      resolveTrigger t =
        some (pyStrip (pyReplace (chars "#E2J") [] (pyReplace (chars "#e2j") [] t)),
          chars "en", chars "ja")) ∧
    (∀ t : List Char, containsSub (pyLower t) (chars "#e2j") = false →
      containsSub (pyLower t) (chars "#j2e") = true →
      resolveTrigger t =
        some (pyStrip (pyReplace (chars "#J2E") [] (pyReplace (chars "#j2e") [] t)),
          chars "ja", chars "en")) ∧
    resolveTrigger (chars "#e2j#E2J only markers") =
      some (chars "only markers", chars "en", chars "ja") := by
  refine ⟨?_, ?_, by decide⟩
  · intro t h
    simp [resolveTrigger, h]
  · intro t h1 h2
    simp [resolveTrigger, h1, h2]

/-- Witness for C2: instantiating the amended statement on the text
"Hello #E2J" yields the text to translate "Hello" with source en and
target ja. -/
theorem C2_witness :
    resolveTrigger (chars "Hello #E2J") =
      some (chars "Hello", chars "en", chars "ja") := by
  have h := C2_strip_behaviour.1 (chars "Hello #E2J") (by decide)
  exact h.trans (by decide)

-- Claim C3 -------------------------------------------------------------------

/-- Refutation of claim C3 as stated: a request whose headers are
present but lack the x-line-signature key makes the handler raise an
uncaught KeyError instead of returning a response, even with full
configuration. -/
theorem C3_counterexample :
    lambda_handler sampleWorld fullConfig ⟨some [], some (chars "payload")⟩ =
      Except.error (chars "KeyError: x-line-signature") := by
  rfl

/-- Claim C3 (amended): for every inbound request whose headers
dictionary is present and contains the x-line-signature key and whose
body is present, lambda_handler returns — and never raises — a response
whose statusCode is one of 200, 500, 502 and whose body is a
JSON-encoded string; when configuration is present and the signature is
valid it returns statusCode 200 with the fixed body "OK".  (A request
missing the headers dictionary, the signature header, or the body
raises an uncaught KeyError.) -/
theorem C3_response_contract (w : World) (cfg : Config)
    (hs : List (List Char × List Char)) (sig body : List Char)
    (hsig : headerLookup hs (chars "x-line-signature") = some sig) :
    ∃ resp tr,
      lambda_handler w cfg ⟨some hs, some body⟩ = Except.ok (resp, tr) ∧
      (resp.statusCode = 200 ∨ resp.statusCode = 500 ∨ resp.statusCode = 502) ∧
      (∃ s, resp.body = jsonDumps s) ∧
      (pyTruthyOpt cfg.channelAccessToken = true →
        pyTruthyOpt cfg.channelSecret = true →
        w.verify body sig = true →
        resp = ⟨200, jsonDumps (chars "OK")⟩) := by
  unfold lambda_handler
  by_cases h1 : pyTruthyOpt cfg.channelAccessToken = true
  · by_cases h2 : pyTruthyOpt cfg.channelSecret = true
    · simp only [h1, h2, Bool.not_true, Bool.or_self, Bool.false_eq_true,
        if_false, hsig]
      by_cases hv : w.verify body sig = true
      · rw [if_pos hv]
        exact ⟨_, _, rfl, Or.inl rfl, ⟨chars "OK", rfl⟩, fun _ _ _ => rfl⟩
      · rw [if_neg hv]
        exact ⟨_, _, rfl, Or.inr (Or.inr rfl), ⟨invalidSignatureMsg, rfl⟩,
          fun _ _ hv2 => absurd hv2 hv⟩
    · have h2f : pyTruthyOpt cfg.channelSecret = false := by
        simpa [Bool.not_eq_true] using h2
      simp only [h2f, Bool.not_false, Bool.or_true, if_true]
      exact ⟨_, _, rfl, Or.inr (Or.inl rfl), ⟨configErrorMsg, rfl⟩,
        fun _ hc _ => Bool.noConfusion hc⟩
  · have h1f : pyTruthyOpt cfg.channelAccessToken = false := by
      simpa [Bool.not_eq_true] using h1
    simp only [h1f, Bool.not_false, Bool.true_or, if_true]
    exact ⟨_, _, rfl, Or.inr (Or.inl rfl), ⟨configErrorMsg, rfl⟩,
      fun hc _ _ => Bool.noConfusion hc⟩

/-- Witness for C3: a concrete well-formed request with full
configuration and a valid signature satisfies the response contract. -/
theorem C3_witness :
    ∃ resp tr,
      lambda_handler sampleWorld fullConfig
        ⟨some [(chars "x-line-signature", chars "sig")], some (chars "payload")⟩ =
        Except.ok (resp, tr) ∧
      (resp.statusCode = 200 ∨ resp.statusCode = 500 ∨ resp.statusCode = 502) ∧
      (∃ s, resp.body = jsonDumps s) ∧
      (pyTruthyOpt fullConfig.channelAccessToken = true →
        pyTruthyOpt fullConfig.channelSecret = true →
        sampleWorld.verify (chars "payload") (chars "sig") = true →
        resp = ⟨200, jsonDumps (chars "OK")⟩) :=
  C3_response_contract sampleWorld fullConfig _ _ _ (by decide)

-- Claim C4 -------------------------------------------------------------------

/-- Claim C4: for every message text that textually contains both
"#e2j" and "#j2e", the trigger resolver deterministically selects
"#e2j" by first-match precedence, so the result has source language en
and target language ja. -/
theorem C4_precedence (t : List Char)
    (h1 : containsSub t (chars "#e2j") = true)
    (_h2 : containsSub t (chars "#j2e") = true) :
    ∃ R, resolveTrigger t = some (R, chars "en", chars "ja") := by
  have hl : containsSub (pyLower t) (chars "#e2j") = true := by
    have hm := containsSub_map Char.toLower t (chars "#e2j") h1
    have hpat : (chars "#e2j").map Char.toLower = chars "#e2j" := by decide
    rw [hpat] at hm
    exact hm
  exact ⟨pyStrip (pyReplace (chars "#E2J") [] (pyReplace (chars "#e2j") [] t)),
    by simp [resolveTrigger, hl]⟩

/-- Witness for C4: the text "#e2j #j2e hi" contains both markers and
resolves to the English-to-Japanese direction. -/
theorem C4_witness :
    ∃ R, resolveTrigger (chars "#e2j #j2e hi") =
      some (R, chars "en", chars "ja") :=
  C4_precedence _ (by decide) (by decide)

-- Claim C5 -------------------------------------------------------------------

/-- Claim C5: for every message text whose remainder is empty after
marker stripping and whitespace trimming, the processing function
produces no reply and never invokes the translation client. -/
theorem C5_empty_remainder
    (translate : List Char → List Char → List Char → Option (List Char))
    (getProfile : List Char → List Char) (ev : LineEvent)
    (src tgt : List Char)
    (h : resolveTrigger (pyStrip ev.text) = some ([], src, tgt)) :
    (process_message_event translate getProfile true ev).reply = none ∧
    (process_message_event translate getProfile true ev).translateCalls = [] := by
  unfold process_message_event
  cases hm : ev.messageIsText with
  | false => simp
  | true => simp [h]

/-- Witness for C5: processing the marker-only message "#j2e" yields no
reply and no translation call even though the translation collaborator
would succeed. -/
theorem C5_witness :
    (process_message_event (fun _ _ _ => some (chars "X"))
      (fun _ => chars "Bob") true
      ⟨true, chars "#j2e", chars "u1", chars "rt"⟩).reply = none ∧
    (process_message_event (fun _ _ _ => some (chars "X"))
      (fun _ => chars "Bob") true
      ⟨true, chars "#j2e", chars "u1", chars "rt"⟩).translateCalls = [] :=
  C5_empty_remainder _ _ _ (chars "ja") (chars "en") (by decide)

-- Claim C6 -------------------------------------------------------------------

/-- Claim C6: for every message text not containing "#e2j" or "#j2e"
under case-insensitive comparison, processing produces no reply, the
translation client is not invoked, and the dispatch loop sends no
outbound message for that event (no echo). -/
theorem C6_no_marker_noop
    (translate : List Char → List Char → List Char → Option (List Char))
    (getProfile : List Char → List Char) (ev : LineEvent)
    (h1 : containsSub (pyLower ev.text) (chars "#e2j") = false)
    (h2 : containsSub (pyLower ev.text) (chars "#j2e") = false) :
    (process_message_event translate getProfile true ev).reply = none ∧
    (process_message_event translate getProfile true ev).translateCalls = [] ∧
    (dispatchEvents translate getProfile [ev]).replies = [] := by
  have hres : resolveTrigger (pyStrip ev.text) = none := by
    unfold resolveTrigger
    have he : containsSub (pyLower (pyStrip ev.text)) (chars "#e2j") = false := by
      by_contra hc
      rw [Bool.not_eq_false] at hc
      exact absurd (containsSub_pyLower_pyStrip _ _ hc) (by simp [h1])
    have hj : containsSub (pyLower (pyStrip ev.text)) (chars "#j2e") = false := by
      by_contra hc
      rw [Bool.not_eq_false] at hc
      exact absurd (containsSub_pyLower_pyStrip _ _ hc) (by simp [h2])
    simp [he, hj]
  have hproc : (process_message_event translate getProfile true ev).reply = none ∧
      (process_message_event translate getProfile true ev).translateCalls = [] := by
    unfold process_message_event
    cases hm : ev.messageIsText with
    | false => simp
    | true => simp [hres]
  refine ⟨hproc.1, hproc.2, ?_⟩
  unfold dispatchEvents
  cases hm : ev.messageIsText with
  | false => simp [hm, HandlerTrace.empty]
  | true => simp [hm, hproc.1, HandlerTrace.empty]

/-- Witness for C6: the marker-free message "hello there" is processed
with no reply, no translation call and no outbound reply. -/
theorem C6_witness :
    (process_message_event (fun _ _ _ => some (chars "X"))
      (fun _ => chars "Bob") true
      ⟨true, chars "hello there", chars "u1", chars "rt"⟩).reply = none ∧
    (process_message_event (fun _ _ _ => some (chars "X"))
      (fun _ => chars "Bob") true
      ⟨true, chars "hello there", chars "u1", chars "rt"⟩).translateCalls = [] ∧
    (dispatchEvents (fun _ _ _ => some (chars "X")) (fun _ => chars "Bob")
      [⟨true, chars "hello there", chars "u1", chars "rt"⟩]).replies = [] :=
  C6_no_marker_noop _ _ _ (by decide) (by decide)

-- Claim C7 -------------------------------------------------------------------

/-- Claim C7: for every successful translation, the composed reply is
exactly "Message from @displayName: (sourceLang -> targetLang):"
followed by a newline, a dashed separator line, a newline and the
translated text. -/
theorem C7_reply_format
    (translate : List Char → List Char → List Char → Option (List Char))
    (getProfile : List Char → List Char) (ev : LineEvent)
    (R src tgt T : List Char)
    (hm : ev.messageIsText = true)
    (h : resolveTrigger (pyStrip ev.text) = some (R, src, tgt))
    (hR : R ≠ [])
    (ht : translate R src tgt = some T) :
    (process_message_event translate getProfile true ev).reply =
      some (chars "Message from @" ++ getProfile ev.userId ++ chars ": (" ++
        src ++ chars " -> " ++ tgt ++ chars "):\n--------------------\n" ++ T) := by
  unfold process_message_event
  simp [hm, h, hR, ht, composeReply, pyInterpolateOpt]

/-- Witness for C7: the inbound text "#j2e こんにちは" from sender "Bob"
with successful translation "Hello" produces exactly the reply
"Message from @Bob: (ja -> en):" followed by the separator and "Hello". -/
theorem C7_witness :
    (process_message_event (fun _ _ _ => some (chars "Hello"))
      (fun _ => chars "Bob") true
      ⟨true, chars "#j2e こんにちは", chars "u1", chars "rt"⟩).reply =
      some (chars "Message from @Bob: (ja -> en):\n--------------------\nHello") := by
  have h := C7_reply_format (fun _ _ _ => some (chars "Hello"))
    (fun _ => chars "Bob") ⟨true, chars "#j2e こんにちは", chars "u1", chars "rt"⟩
    (chars "こんにちは") (chars "ja") (chars "en") (chars "Hello")
    rfl (by decide) (by decide) rfl
  exact h.trans (by decide)

-- Claim C8 -------------------------------------------------------------------

/-- Claim C8: for every input and every behaviour of the model
endpoint, translate_text is total (never raises past its boundary): it
returns the failure indicator none whenever the endpoint call fails or
the response lacks the path output.message.content[0].text, and on
success it returns the extracted text with surrounding whitespace
trimmed. -/
theorem C8_translate_total_behaviour
    (invoke : List Char → Option PyJson)
    (text source_lang target_lang : List Char) :
    (invoke (mkPrompt target_lang text) = none →
      translate_text invoke text source_lang target_lang = none) ∧
    (∀ rb, invoke (mkPrompt target_lang text) = some rb →
      extractTranslation rb = none →
      translate_text invoke text source_lang target_lang = none) ∧
    (∀ rb s, invoke (mkPrompt target_lang text) = some rb →
      extractTranslation rb = some s →
      translate_text invoke text source_lang target_lang = some (pyStrip s)) := by
  refine ⟨fun h => ?_, fun rb h1 h2 => ?_, fun rb s h1 h2 => ?_⟩ <;>
    simp [translate_text, *]

/-- Witness for C8: an endpoint answering with a well-formed response
whose text field is " Hello " yields the trimmed translation "Hello". -/
theorem C8_witness :
    translate_text (fun _ => some sampleResponse)
      (chars "hi") (chars "en") (chars "ja") = some (chars "Hello") := by
  have h := (C8_translate_total_behaviour (fun _ => some sampleResponse)
    (chars "hi") (chars "en") (chars "ja")).2.2 sampleResponse
    (chars " Hello ") rfl (by decide)
  exact h.trans (by decide)

-- Claim C9 -------------------------------------------------------------------

/-- Claim C9: for every message event where a trigger matched but the
translation client returns the failure indicator, processing still
composes the success-shaped reply with the failure placeholder "None"
interpolated in place of the translated text; no distinct error message
is produced at this layer. -/
theorem C9_failure_placeholder
    (translate : List Char → List Char → List Char → Option (List Char))
    (getProfile : List Char → List Char) (ev : LineEvent)
    (R src tgt : List Char)
    (hm : ev.messageIsText = true)
    (h : resolveTrigger (pyStrip ev.text) = some (R, src, tgt))
    (hR : R ≠ [])
    (ht : translate R src tgt = none) :
    (process_message_event translate getProfile true ev).reply =
      some (chars "Message from @" ++ getProfile ev.userId ++ chars ": (" ++
        src ++ chars " -> " ++ tgt ++ chars "):\n--------------------\n" ++
        chars "None") := by
  unfold process_message_event
  simp [hm, h, hR, ht, composeReply, pyInterpolateOpt]

/-- Witness for C9: a failing translation of "#e2j hi" from sender
"Bob" still yields the success-shaped reply, ending in "None". -/
theorem C9_witness :
    (process_message_event (fun _ _ _ => none) (fun _ => chars "Bob") true
      ⟨true, chars "#e2j hi", chars "u1", chars "rt"⟩).reply =
      some (chars "Message from @Bob: (en -> ja):\n--------------------\nNone") := by
  have h := C9_failure_placeholder (fun _ _ _ => none) (fun _ => chars "Bob")
    ⟨true, chars "#e2j hi", chars "u1", chars "rt"⟩
    (chars "hi") (chars "en") (chars "ja") rfl (by decide) (by decide) rfl
  exact h.trans (by decide)

-- Claim C10 ------------------------------------------------------------------

/-- Claim C10: for every invocation with configuration present where
signature verification rejects the payload, the handler returns
statusCode 502 with the invalid-signature message body, and no message
processing occurs: no profile lookup, no translation, no reply send. -/
theorem C10_invalid_signature (w : World) (cfg : Config)
    (hs : List (List Char × List Char)) (sig body : List Char)
    (hcfg1 : pyTruthyOpt cfg.channelAccessToken = true)
    (hcfg2 : pyTruthyOpt cfg.channelSecret = true)
    (hsig : headerLookup hs (chars "x-line-signature") = some sig)
    (hver : w.verify body sig = false) :
    lambda_handler w cfg ⟨some hs, some body⟩ =
      Except.ok (⟨502, jsonDumps invalidSignatureMsg⟩,
        ⟨[(body, sig)], [], [], []⟩) := by
  unfold lambda_handler
  simp [hcfg1, hcfg2, hsig, hver, HandlerTrace.empty]

/-- Witness for C10: a concrete fully configured invocation whose
signature fails verification returns the 502 response and an otherwise
empty call trace. -/
theorem C10_witness :
    lambda_handler
      ⟨fun _ _ => false, fun _ => [], fun _ => chars "Bob", fun _ _ _ => none⟩
      fullConfig
      ⟨some [(chars "x-line-signature", chars "bad")], some (chars "payload")⟩ =
      Except.ok (⟨502, jsonDumps invalidSignatureMsg⟩,
        ⟨[(chars "payload", chars "bad")], [], [], []⟩) :=
  C10_invalid_signature _ _ _ _ _ (by decide) (by decide) (by decide) rfl

end TranslatorBot
